import Mathlib

/-!
Shallow embedding of the Personal Finance Tracker core (models.py, utils.py).

Amounts are modelled as rationals (`ℚ`): the Python code stores `float(amount)`
and the claims only involve exact decimal values.  Wall-clock time is passed in
explicitly: every operation that calls `datetime.now()` in the source takes the
current `DateTime` (or, for the report, an integer timestamp) as an argument.
Python's built-in string `hash` is an abstract parameter `pyHash : String → ℤ`.
Python dicts (insertion ordered) are association lists `List (String × ℚ)`.
-/

namespace FinTrack

/-- A calendar date-time at second precision, as produced by `datetime.now()`. -/
structure DateTime where
  year : Nat
  month : Nat
  day : Nat
  hour : Nat
  minute : Nat
  second : Nat
deriving DecidableEq, Repr

/-- Zero-pad a numeric field to two digits, as `strftime` does for `%m`, `%d`, `%H`, `%M`, `%S`. -/
def pad2 (n : Nat) : String :=
  if n < 10 then "0" ++ toString n else toString n

/-- Zero-pad the year to four digits, as `strftime` does for `%Y`. -/
def pad4 (n : Nat) : String :=
  if n < 10 then "000" ++ toString n
  else if n < 100 then "00" ++ toString n
  else if n < 1000 then "0" ++ toString n
  else toString n

/-- `strftime("%Y-%m-%d %H:%M:%S")` — the storage format of `Transaction.date`. -/
def fmtDateTime (d : DateTime) : String :=
  pad4 d.year ++ "-" ++ pad2 d.month ++ "-" ++ pad2 d.day ++ " " ++
    pad2 d.hour ++ ":" ++ pad2 d.minute ++ ":" ++ pad2 d.second

/-- `strftime("%Y%m%d%H%M%S")` — the timestamp part of a generated transaction id. -/
def fmtCompact (d : DateTime) : String :=
  pad4 d.year ++ pad2 d.month ++ pad2 d.day ++ pad2 d.hour ++ pad2 d.minute ++ pad2 d.second

/-- A financial transaction (class `Transaction` in models.py). -/
structure Transaction where
  amount : ℚ
  category : String
  transaction_type : String
  description : String
  date : String
  id : String
deriving DecidableEq, Repr

/-- The raw `amount` argument handed to `Transaction.__init__` / `validate_amount`:
either a value `float()` converts successfully (a number or numeric string),
or a non-numeric string on which `float()` raises `ValueError`. -/
inductive AmountInput where
  | num (q : ℚ)
  | nonNumeric
deriving DecidableEq, Repr

/-- Python's `float(amount)`: `none` models the `ValueError` raise. -/
def pyFloat : AmountInput → Option ℚ
  | AmountInput.num q => some q
  | AmountInput.nonNumeric => none

/-- `Transaction._generate_id`:
`f"{datetime.now().strftime('%Y%m%d%H%M%S')}_{hash(self.description) % 10000}"`.
`pyHash` stands for Python's string `hash`; `%` on `ℤ` is `emod`, matching
Python's nonnegative remainder. -/
def generate_id (pyHash : String → ℤ) (now : DateTime) (description : String) : String :=
  fmtCompact now ++ "_" ++ toString (pyHash description % 10000)

/-- `Transaction.__init__`: `float(amount)` may raise (`none`); a missing or
falsy (empty-string) `date` defaults to the formatted current time; the id is
generated from the current time and the description. -/
def mkTransaction (pyHash : String → ℤ) (now : DateTime) (amount : AmountInput)
    (category transaction_type description : String) (date : Option String) :
    Option Transaction :=
  match pyFloat amount with
  | none => none
  | some q =>
      let d := match date with
        | some s => if s = "" then fmtDateTime now else s
        | none => fmtDateTime now
      some { amount := q, category := category, transaction_type := transaction_type,
             description := description, date := d,
             id := generate_id pyHash now description }

/-- The dictionary shape produced by `Transaction.to_dict` and stored in the
JSON file (fields `id`, `amount`, `category`, `type`, `description`, `date`). -/
structure TxDict where
  id : String
  amount : ℚ
  category : String
  type : String
  description : String
  date : String
deriving DecidableEq, Repr

/-- `Transaction.to_dict`. -/
def Transaction.to_dict (t : Transaction) : TxDict :=
  { id := t.id, amount := t.amount, category := t.category,
    type := t.transaction_type, description := t.description, date := t.date }

/-- `Transaction.from_dict`: constructs via `__init__` (so the id is first
regenerated from the clock), then overwrites `id` with the stored one. -/
def Transaction.from_dict (pyHash : String → ℤ) (now : DateTime) (d : TxDict) :
    Option Transaction :=
  (mkTransaction pyHash now (AmountInput.num d.amount) d.category d.type
      d.description (some d.date)).map
    (fun t => { t with id := d.id })

/-- The seed income categories of `FinanceTracker.__init__`. -/
def defaultIncomeCategories : List String :=
  ["Salary", "Freelance", "Investment", "Gift", "Other"]

/-- The seed expense categories of `FinanceTracker.__init__`. -/
def defaultExpenseCategories : List String :=
  ["Food", "Transport", "Entertainment", "Bills", "Shopping", "Healthcare", "Other"]

/-- The in-memory state of a `FinanceTracker`: the ordered transaction list and
the two ordered category lists (`self.categories['income' | 'expense']`). -/
structure FinanceTracker where
  transactions : List Transaction
  incomeCategories : List String
  expenseCategories : List String
deriving DecidableEq, Repr

/-- A freshly initialized tracker whose data file does not exist
(`load_data` hits `FileNotFoundError` and keeps empty/seed state). -/
def initialTracker : FinanceTracker :=
  { transactions := [],
    incomeCategories := defaultIncomeCategories,
    expenseCategories := defaultExpenseCategories }

/-- The category-registry update inside `add_transaction`:
`if category not in self.categories[transaction_type]: append`. -/
def ensureCategory (s : FinanceTracker) (transaction_type category : String) :
    FinanceTracker :=
  if transaction_type = "income" then
    if category ∈ s.incomeCategories then s
    else { s with incomeCategories := s.incomeCategories ++ [category] }
  else
    if category ∈ s.expenseCategories then s
    else { s with expenseCategories := s.expenseCategories ++ [category] }

/-- Outcome of `FinanceTracker.add_transaction`: success, the `ValueError`
raised on an invalid transaction type, or the `ValueError` raised by
`float(amount)` inside the `Transaction` constructor.  Each constructor
carries the in-memory state at the moment the call returns or raises. -/
inductive AddResult where
  | ok (t : Transaction) (s : FinanceTracker)
  | typeError (s : FinanceTracker)
  | amountError (s : FinanceTracker)
deriving DecidableEq, Repr

/-- The tracker state carried by an `AddResult`. -/
def resultState : AddResult → FinanceTracker
  | AddResult.ok _ s => s
  | AddResult.typeError s => s
  | AddResult.amountError s => s

/-- Whether an `AddResult` is a success. -/
def AddResult.isOk : AddResult → Bool
  | AddResult.ok _ _ => true
  | _ => false

/-- Whether an `AddResult` is the `float(amount)` failure. -/
def AddResult.isAmountError : AddResult → Bool
  | AddResult.amountError _ => true
  | _ => false

/-- `FinanceTracker.add_transaction`: validates the type, extends the category
registry for the type if needed, then constructs and appends the transaction.
Note the registry is extended *before* the constructor can raise on a
non-numeric amount.  `save_data` (pure file output) does not change state. -/
def add_transaction (pyHash : String → ℤ) (now : DateTime) (s : FinanceTracker)
    (amount : AmountInput) (category transaction_type description : String) :
    AddResult :=
  if transaction_type = "income" ∨ transaction_type = "expense" then
    let s1 := ensureCategory s transaction_type category
    match mkTransaction pyHash now amount category transaction_type description none with
    | none => AddResult.amountError s1
    | some t => AddResult.ok t { s1 with transactions := s1.transactions ++ [t] }
  else AddResult.typeError s

/-- `FinanceTracker.get_balance`: income sum minus expense sum. -/
def get_balance (s : FinanceTracker) : ℚ :=
  ((s.transactions.filter (fun t => decide (t.transaction_type = "income"))).map
      Transaction.amount).sum
    - ((s.transactions.filter (fun t => decide (t.transaction_type = "expense"))).map
      Transaction.amount).sum

/-- `FinanceTracker.delete_transaction`: keeps every transaction whose id
differs, saves, and returns `True` unconditionally. -/
def delete_transaction (s : FinanceTracker) (transaction_id : String) :
    Bool × FinanceTracker :=
  (true, { s with
            transactions := s.transactions.filter
              (fun t => decide (t.id ≠ transaction_id)) })

/-- The JSON document written by `save_data` and read by `load_data`. -/
structure SavedData where
  transactions : List TxDict
  incomeCategories : List String
  expenseCategories : List String
deriving DecidableEq, Repr

/-- `FinanceTracker.save_data`: serializes transactions and categories. -/
def save_data (s : FinanceTracker) : SavedData :=
  { transactions := s.transactions.map Transaction.to_dict,
    incomeCategories := s.incomeCategories,
    expenseCategories := s.expenseCategories }

/-- The list comprehension `[Transaction.from_dict(t) for t in data['transactions']]`;
`none` models an exception escaping from any element. -/
def loadTransactions (pyHash : String → ℤ) (now : DateTime) :
    List TxDict → Option (List Transaction)
  | [] => some []
  | d :: ds =>
      match Transaction.from_dict pyHash now d with
      | none => none
      | some t =>
          match loadTransactions pyHash now ds with
          | none => none
          | some ts => some (t :: ts)

/-- `FinanceTracker.load_data` on an existing, well-formed file. -/
def load_data (pyHash : String → ℤ) (now : DateTime) (data : SavedData) :
    Option FinanceTracker :=
  (loadTransactions pyHash now data.transactions).map
    (fun ts =>
      { transactions := ts,
        incomeCategories := data.incomeCategories,
        expenseCategories := data.expenseCategories })

/-- `validate_amount` from utils.py (the UI-side check): `float()` then a
positivity test; `none` for both a parse failure and a non-positive value. -/
def validate_amount (amount : AmountInput) : Option ℚ :=
  match pyFloat amount with
  | none => none
  | some q => if q ≤ 0 then none else some q

/-- Lookup in an insertion-ordered dict modelled as an association list. -/
def dictLookup (m : List (String × ℚ)) (k : String) : Option ℚ :=
  (m.find? (fun p => decide (p.1 = k))).map Prod.snd

/-- `m[k] += v` on a dict whose key `k` is present: update the entry in place. -/
def dictAddTo (m : List (String × ℚ)) (k : String) (v : ℚ) : List (String × ℚ) :=
  m.map (fun p => if p.1 = k then (p.1, p.2 + v) else p)

/-- One loop iteration of `calculate_category_totals`: initialize the key to 0
if absent, then add the amount for income and subtract it otherwise. -/
def totalsStep (m : List (String × ℚ)) (t : Transaction) : List (String × ℚ) :=
  let m1 := if (dictLookup m t.category).isSome then m else m ++ [(t.category, 0)]
  if t.transaction_type = "income" then dictAddTo m1 t.category t.amount
  else dictAddTo m1 t.category (-t.amount)

/-- `calculate_category_totals` from utils.py. -/
def calculate_category_totals (ts : List Transaction) : List (String × ℚ) :=
  ts.foldl totalsStep []

/-- The by-category accumulation loops of `generate_spending_report`
(initialize absent key to 0, then `+= amount`). -/
def byCategorySum (ts : List Transaction) : List (String × ℚ) :=
  ts.foldl
    (fun m t =>
      let m1 := if (dictLookup m t.category).isSome then m else m ++ [(t.category, 0)]
      dictAddTo m1 t.category t.amount)
    []

/-- The report dictionary returned by `generate_spending_report`. -/
structure SpendingReport where
  period : String
  total_income : ℚ
  total_expenses : ℚ
  net_balance : ℚ
  expense_by_category : List (String × ℚ)
  income_by_category : List (String × ℚ)
deriving DecidableEq, Repr

/-- `generate_spending_report` from utils.py.  Points in time are integers
(seconds): `now` is `datetime.now()`, `strptime` the (abstract) parse of a
stored date string, `fmtDay` the `strftime('%Y-%m-%d')` used for the period
label, and `timedelta(days=days)` is `days * 86400` seconds. -/
def generate_spending_report (strptime : String → ℤ) (fmtDay : ℤ → String)
    (now : ℤ) (ts : List Transaction) (days : ℤ) : SpendingReport :=
  let start := now - days * 86400
  let recent := ts.filter
    (fun t => decide (start ≤ strptime t.date) && decide (strptime t.date ≤ now))
  let expenses := recent.filter (fun t => decide (t.transaction_type = "expense"))
  let income := recent.filter (fun t => decide (t.transaction_type = "income"))
  { period := fmtDay start ++ " to " ++ fmtDay now,
    total_income := (income.map Transaction.amount).sum,
    total_expenses := (expenses.map Transaction.amount).sum,
    net_balance := (income.map Transaction.amount).sum
      - (expenses.map Transaction.amount).sum,
    expense_by_category := byCategorySum expenses,
    income_by_category := byCategorySum income }

/-- One user-level mutation of the ledger, with the wall-clock time at which
it happens. -/
inductive Op where
  | addOp (now : DateTime) (amount : AmountInput)
      (category transaction_type description : String)
  | deleteOp (transaction_id : String)

/-- Apply one operation to the tracker (a raised `ValueError` leaves the state
as it was at the moment of the raise). -/
def applyOp (pyHash : String → ℤ) (s : FinanceTracker) : Op → FinanceTracker
  | Op.addOp now amount category transaction_type description =>
      resultState (add_transaction pyHash now s amount category transaction_type description)
  | Op.deleteOp tid => (delete_transaction s tid).2

/-- Run a sequence of add/delete operations. -/
def runOps (pyHash : String → ℤ) (s : FinanceTracker) (ops : List Op) : FinanceTracker :=
  ops.foldl (applyOp pyHash) s

/-- The signed contribution of a transaction to a category total:
income counts positively, anything else negatively. -/
def signedAmount (t : Transaction) : ℚ :=
  if t.transaction_type = "income" then t.amount else -t.amount

/-- The signed total of a single category over a transaction list. -/
def signedTotal (ts : List Transaction) (cat : String) : ℚ :=
  ((ts.filter (fun t => decide (t.category = cat))).map signedAmount).sum

/-- A fixed interpretation of Python's string `hash` used for concrete runs. -/
def hash0 : String → ℤ := fun _ => 0

/-- A fixed clock instant used for concrete runs. -/
def now0 : DateTime := ⟨2024, 1, 2, 3, 4, 5⟩

/-- The invariant every stored transaction satisfies: its type is one of the
two legal strings (enforced by the guard in `add_transaction`). -/
def goodType (t : Transaction) : Prop :=
  t.transaction_type = "income" ∨ t.transaction_type = "expense"

/-- The balance as the specification words it: sum of income amounts minus
sum of expense amounts over the current transaction set. -/
def specBalance (ts : List Transaction) : ℚ :=
  ((ts.filter (fun t => decide (t.transaction_type = "income"))).map
      Transaction.amount).sum
    - ((ts.filter (fun t => decide (t.transaction_type = "expense"))).map
      Transaction.amount).sum

/-- The transaction produced by the first concrete `add_transaction` run below. -/
def tx0 : Transaction :=
  { amount := 5, category := "Salary", transaction_type := "income",
    description := "", date := "2024-01-02 03:04:05", id := "20240102030405_0" }

/-- The tracker after that first concrete add. -/
def trk1 : FinanceTracker := { initialTracker with transactions := [tx0] }

/-- Two adds in the same clock second, both with the empty description. -/
def addTwiceSameSecond : FinanceTracker :=
  resultState (add_transaction hash0 now0
    (resultState (add_transaction hash0 now0 initialTracker
      (AmountInput.num 5) "Salary" "income" ""))
    (AmountInput.num 7) "Salary" "income" "")

/-- A concrete expense transaction used in closed instances. -/
def txA : Transaction :=
  { amount := 10, category := "Food", transaction_type := "expense",
    description := "lunch", date := "2024-01-02 03:04:05", id := "a" }

/-- A concrete income transaction used in closed instances. -/
def txB : Transaction :=
  { amount := 7, category := "Salary", transaction_type := "income",
    description := "", date := "2024-01-01 00:00:00", id := "b" }

/-- A concrete tracker holding `txA` and `txB`. -/
def trkAB : FinanceTracker :=
  { initialTracker with transactions := [txA, txB] }

/-- The spec's example scenario: Income 1000 Salary, Expense 50 Food,
Expense 20 Food. -/
def exampleTxs : List Transaction :=
  [{ amount := 1000, category := "Salary", transaction_type := "income",
     description := "", date := "2024-01-02 03:04:05", id := "e1" },
   { amount := 50, category := "Food", transaction_type := "expense",
     description := "", date := "2024-01-02 03:04:06", id := "e2" },
   { amount := 20, category := "Food", transaction_type := "expense",
     description := "", date := "2024-01-02 03:04:07", id := "e3" }]

/-- `ensureCategory` never touches the transaction list. -/
theorem ensureCategory_transactions (s : FinanceTracker)
    (transaction_type category : String) :
    (ensureCategory s transaction_type category).transactions = s.transactions := by
  unfold ensureCategory
  split <;> split <;> rfl

/-- `ensureCategory` never removes a category; on the two legal types it only
appends. Not needed below but records the registry direction of growth. -/
theorem ensureCategory_income_sub (s : FinanceTracker)
    (transaction_type category : String) :
    ∀ c ∈ s.incomeCategories,
      c ∈ (ensureCategory s transaction_type category).incomeCategories := by
  intro c hc
  unfold ensureCategory
  split <;> split <;> simp_all

/-- C1 (counterexample): deleting an id that is not present still returns
`True` (and leaves the empty tracker unchanged) — the claim says it must
report `false` when nothing was removed. -/
theorem delete_missing_returns_true :
    initialTracker.transactions = []
      ∧ (delete_transaction initialTracker "missing").1 = true
      ∧ (delete_transaction initialTracker "missing").2 = initialTracker := by
  decide

/-- C1 (amended): `delete_transaction` filters out every transaction whose id
matches and persists, but its boolean result is unconditionally `True`;
deleting an absent id is still a no-op on the state. -/
theorem delete_always_true (s : FinanceTracker) (tid : String) :
    (delete_transaction s tid).1 = true
      ∧ (delete_transaction s tid).2.transactions
          = s.transactions.filter (fun t => decide (t.id ≠ tid))
      ∧ (tid ∉ s.transactions.map Transaction.id → (delete_transaction s tid).2 = s) := by
  refine ⟨rfl, rfl, fun h => ?_⟩
  have hall : s.transactions.filter (fun t => decide (t.id ≠ tid)) = s.transactions := by
    rw [List.filter_eq_self]
    intro t ht
    simp only [decide_eq_true_eq]
    intro hid
    exact h (hid ▸ List.mem_map_of_mem Transaction.id ht)
  show ({ s with transactions := s.transactions.filter (fun t => decide (t.id ≠ tid)) } : FinanceTracker) = s
  rw [hall]

/-- C1 (amended) witness at a concrete tracker and absent id. -/
theorem delete_always_true_witness :
    (delete_transaction trkAB "zz").1 = true ∧ (delete_transaction trkAB "zz").2 = trkAB :=
  ⟨(delete_always_true trkAB "zz").1, (delete_always_true trkAB "zz").2.2 (by decide)⟩

/-- C2 (counterexample): a negative amount is accepted by the core — the add
succeeds even though the UI-side `validate_amount` would have rejected it. -/
theorem add_negative_amount_accepted :
    (add_transaction hash0 now0 initialTracker (AmountInput.num (-5))
        "Salary" "income" "").isOk = true
      ∧ validate_amount (AmountInput.num (-5)) = none := by
  constructor
  · rfl
  · decide

/-- C2 (amended): the core validates only the transaction type; a non-numeric
amount fails via `float()`, but every numeric amount — positive or not — is
accepted; the positivity check lives only in the UI-side `validate_amount`. -/
theorem add_amount_validation (pyHash : String → ℤ) (now : DateTime)
    (s : FinanceTracker) (amount : AmountInput)
    (category transaction_type description : String) :
    (¬(transaction_type = "income" ∨ transaction_type = "expense") →
        add_transaction pyHash now s amount category transaction_type description
          = AddResult.typeError s)
      ∧ (pyFloat amount = none →
          (transaction_type = "income" ∨ transaction_type = "expense") →
          add_transaction pyHash now s amount category transaction_type description
            = AddResult.amountError (ensureCategory s transaction_type category))
      ∧ (∀ q : ℚ, pyFloat amount = some q →
          (transaction_type = "income" ∨ transaction_type = "expense") →
          (add_transaction pyHash now s amount category transaction_type
              description).isOk = true)
      ∧ (∀ q : ℚ, q ≤ 0 → validate_amount (AmountInput.num q) = none) := by
  refine ⟨fun hty => ?_, fun ha hty => ?_, fun q ha hty => ?_, fun q hq => ?_⟩
  · simp [add_transaction, hty]
  · simp [add_transaction, mkTransaction, hty, ha]
  · simp [add_transaction, mkTransaction, hty, ha, AddResult.isOk]
  · simp [validate_amount, pyFloat, hq]

/-- C2 (amended) witness: a negative numeric amount and an invalid type at
concrete inputs. -/
theorem add_amount_validation_witness :
    (add_transaction hash0 now0 initialTracker (AmountInput.num (-3))
        "Food" "expense" "x").isOk = true
      ∧ validate_amount (AmountInput.num (-3)) = none
      ∧ add_transaction hash0 now0 initialTracker (AmountInput.num 4)
          "Food" "junk" "x" = AddResult.typeError initialTracker :=
  ⟨(add_amount_validation hash0 now0 initialTracker (AmountInput.num (-3))
      "Food" "expense" "x").2.2.1 (-3) rfl (Or.inr rfl),
   (add_amount_validation hash0 now0 initialTracker (AmountInput.num (-3))
      "Food" "expense" "x").2.2.2 (-3) (by norm_num),
   (add_amount_validation hash0 now0 initialTracker (AmountInput.num 4)
      "Food" "junk" "x").1 (by decide)⟩

/-- C3 (counterexample): when `float(amount)` raises on a non-numeric amount,
the category registry has already been extended — the failed add leaves the
state mutated, contradicting "no partial mutation occurs". -/
theorem add_badamount_mutates_registry :
    (add_transaction hash0 now0 initialTracker AmountInput.nonNumeric
        "Bonus" "income" "").isAmountError = true
      ∧ (resultState (add_transaction hash0 now0 initialTracker
            AmountInput.nonNumeric "Bonus" "income" "")).incomeCategories
          = defaultIncomeCategories ++ ["Bonus"]
      ∧ initialTracker.incomeCategories ≠ defaultIncomeCategories ++ ["Bonus"] := by
  decide

/-- C3 (amended): a failed add on an invalid type leaves the state untouched;
a failed add on a non-numeric amount leaves the transaction sequence
untouched, but the category registry has already been updated by
`ensureCategory`. -/
theorem add_failure_mutation (pyHash : String → ℤ) (now : DateTime)
    (s : FinanceTracker) (amount : AmountInput)
    (category transaction_type description : String) :
    (¬(transaction_type = "income" ∨ transaction_type = "expense") →
        resultState (add_transaction pyHash now s amount category
          transaction_type description) = s)
      ∧ (pyFloat amount = none →
          (transaction_type = "income" ∨ transaction_type = "expense") →
          add_transaction pyHash now s amount category transaction_type description
              = AddResult.amountError (ensureCategory s transaction_type category)
            ∧ (resultState (add_transaction pyHash now s amount category
                transaction_type description)).transactions = s.transactions) := by
  constructor
  · intro hty
    simp [add_transaction, hty, resultState]
  · intro ha hty
    have heq : add_transaction pyHash now s amount category transaction_type description
        = AddResult.amountError (ensureCategory s transaction_type category) := by
      simp [add_transaction, mkTransaction, hty, ha]
    exact ⟨heq, by rw [heq]; exact ensureCategory_transactions s transaction_type category⟩

/-- C3 (amended) witness at concrete inputs: an invalid-type add leaves the
initial tracker unchanged; a non-numeric-amount add keeps the transaction
list while the registry gains the new category. -/
theorem add_failure_mutation_witness :
    resultState (add_transaction hash0 now0 initialTracker (AmountInput.num 4)
        "Food" "junk" "") = initialTracker
      ∧ (resultState (add_transaction hash0 now0 initialTracker
          AmountInput.nonNumeric "Bonus" "income" "")).transactions
          = initialTracker.transactions :=
  ⟨(add_failure_mutation hash0 now0 initialTracker (AmountInput.num 4)
      "Food" "junk" "").1 (by decide),
   ((add_failure_mutation hash0 now0 initialTracker AmountInput.nonNumeric
      "Bonus" "income" "").2 rfl (Or.inl rfl)).2⟩

/-- C4 (code bug): two transactions added in the same clock second with the
same description receive the *same* generated id — `_generate_id`'s
"unique ID" docstring and the claimed uniqueness both fail. -/
theorem duplicate_ids_same_second :
    addTwiceSameSecond.transactions.length = 2
      ∧ ¬(addTwiceSameSecond.transactions.map Transaction.id).Nodup
      ∧ (addTwiceSameSecond.transactions.map Transaction.id)
          = ["20240102030405_0", "20240102030405_0"] := by
  decide

/-- C10: a transaction created through `add_transaction` (which passes no
date) is always stamped with the current wall-clock time in the
`"%Y-%m-%d %H:%M:%S"` storage format; its id likewise comes from the clock
and description. -/
theorem add_stamps_current_time (pyHash : String → ℤ) (now : DateTime)
    (s : FinanceTracker) (amount : AmountInput)
    (category transaction_type description : String)
    (t : Transaction) (s' : FinanceTracker)
    (h : add_transaction pyHash now s amount category transaction_type description
        = AddResult.ok t s') :
    t.date = fmtDateTime now ∧ t.id = generate_id pyHash now description := by
  unfold add_transaction at h
  split at h
  · unfold mkTransaction at h
    cases hpf : pyFloat amount with
    | none => rw [hpf] at h; exact absurd h (by simp)
    | some q =>
        rw [hpf] at h
        simp only [AddResult.ok.injEq] at h
        obtain ⟨ht, -⟩ := h
        subst ht
        exact ⟨rfl, rfl⟩
  · exact absurd h (by simp)

/-- C10 witness: the concrete add at `now0` stamps `tx0` with
"2024-01-02 03:04:05". -/
theorem add_stamps_current_time_witness :
    tx0.date = fmtDateTime now0 ∧ tx0.id = generate_id hash0 now0 "" :=
  add_stamps_current_time hash0 now0 initialTracker (AmountInput.num 5)
    "Salary" "income" "" tx0 trk1 (by decide)

/-- One-record round trip: `from_dict` of `to_dict` restores every field,
including the stored id and date (the date must be non-falsy, i.e. nonempty,
or the constructor would replace it with the current time). -/
theorem from_dict_to_dict_aux (pyHash : String → ℤ) (now : DateTime)
    (t : Transaction) (h : t.date ≠ "") :
    Transaction.from_dict pyHash now t.to_dict = some t := by
  obtain ⟨am, cat, ty, desc, date, tid⟩ := t
  simp only [ne_eq] at h
  simp [Transaction.from_dict, Transaction.to_dict, mkTransaction, pyFloat, h]

/-- The whole stored transaction array round-trips element by element. -/
theorem loadTransactions_roundtrip (pyHash : String → ℤ) (now : DateTime)
    (ts : List Transaction) (h : ∀ t ∈ ts, t.date ≠ "") :
    loadTransactions pyHash now (ts.map Transaction.to_dict) = some ts := by
  induction ts with
  | nil => rfl
  | cons t ts ih =>
      simp only [List.map_cons, loadTransactions]
      rw [from_dict_to_dict_aux pyHash now t (h t (List.mem_cons_self t ts))]
      rw [ih (fun x hx => h x (List.mem_cons_of_mem t hx))]

/-- C5: serialization round-trips.  `from_dict ∘ to_dict` restores id, amount,
category, type, description and the original date string, and `load_data` of
`save_data` reproduces the exact tracker state (transactions and both
category lists), provided the stored date strings are nonempty — which every
date written by the tracker is. -/
theorem serialize_roundtrip (pyHash : String → ℤ) (now : DateTime) :
    (∀ t : Transaction, t.date ≠ "" →
        Transaction.from_dict pyHash now t.to_dict = some t)
      ∧ (∀ s : FinanceTracker, (∀ t ∈ s.transactions, t.date ≠ "") →
          load_data pyHash now (save_data s) = some s) := by
  refine ⟨fun t h => from_dict_to_dict_aux pyHash now t h, fun s h => ?_⟩
  simp only [load_data, save_data]
  rw [loadTransactions_roundtrip pyHash now s.transactions h]
  rfl

/-- C5 witness: the round trip at a concrete transaction and tracker. -/
theorem serialize_roundtrip_witness :
    Transaction.from_dict hash0 now0 txA.to_dict = some txA
      ∧ load_data hash0 now0 (save_data trkAB) = some trkAB :=
  ⟨(serialize_roundtrip hash0 now0).1 txA (by decide),
   (serialize_roundtrip hash0 now0).2 trkAB (by decide)⟩

/-- The fields a successful `Transaction.__init__` with no supplied date gives
the new object: the requested type and the formatted current time. -/
theorem mkTransaction_type_date (pyHash : String → ℤ) (now : DateTime)
    (amount : AmountInput) (category transaction_type description : String)
    (tr : Transaction)
    (h : mkTransaction pyHash now amount category transaction_type description none
        = some tr) :
    tr.transaction_type = transaction_type ∧ tr.date = fmtDateTime now := by
  unfold mkTransaction at h
  cases hpf : pyFloat amount with
  | none => rw [hpf] at h; exact absurd h (by simp)
  | some q =>
      rw [hpf] at h
      simp only [Option.some.injEq] at h
      subst h
      exact ⟨rfl, rfl⟩

/-- After any `add_transaction`, the transaction list is either unchanged or
extended by the one constructed transaction (whose type passed the guard). -/
theorem add_transactions_cases (pyHash : String → ℤ) (now : DateTime)
    (s : FinanceTracker) (amount : AmountInput)
    (category transaction_type description : String) :
    (resultState (add_transaction pyHash now s amount category transaction_type
        description)).transactions = s.transactions
      ∨ ∃ tr, mkTransaction pyHash now amount category transaction_type description none
            = some tr
          ∧ (transaction_type = "income" ∨ transaction_type = "expense")
          ∧ (resultState (add_transaction pyHash now s amount category
              transaction_type description)).transactions
            = s.transactions ++ [tr] := by
  by_cases hty : transaction_type = "income" ∨ transaction_type = "expense"
  · cases hm : mkTransaction pyHash now amount category transaction_type description none with
    | none =>
        left
        have heq : add_transaction pyHash now s amount category transaction_type description
            = AddResult.amountError (ensureCategory s transaction_type category) := by
          unfold add_transaction
          rw [if_pos hty, hm]
        rw [heq]
        exact ensureCategory_transactions s transaction_type category
    | some tr =>
        right
        have heq : add_transaction pyHash now s amount category transaction_type description
            = AddResult.ok tr
                { ensureCategory s transaction_type category with
                  transactions := (ensureCategory s transaction_type category).transactions
                    ++ [tr] } := by
          unfold add_transaction
          rw [if_pos hty, hm]
        refine ⟨tr, rfl, hty, ?_⟩
        rw [heq]
        show (ensureCategory s transaction_type category).transactions ++ [tr]
          = s.transactions ++ [tr]
        rw [ensureCategory_transactions s transaction_type category]
  · left
    have heq : add_transaction pyHash now s amount category transaction_type description
        = AddResult.typeError s := by
      unfold add_transaction
      rw [if_neg hty]
    rw [heq]
    rfl

/-- Every operation preserves the type invariant of the stored transactions. -/
theorem applyOp_goodTypes (pyHash : String → ℤ) (s : FinanceTracker) (op : Op)
    (h : ∀ t ∈ s.transactions, goodType t) :
    ∀ t ∈ (applyOp pyHash s op).transactions, goodType t := by
  cases op with
  | deleteOp tid =>
      intro t ht
      exact h t (List.mem_filter.1 ht).1
  | addOp now amount category transaction_type description =>
      intro t ht
      rcases add_transactions_cases pyHash now s amount category transaction_type
          description with hc | ⟨tr, hm, hty, hc⟩
      · rw [applyOp, hc] at ht
        exact h t ht
      · rw [applyOp, hc] at ht
        rcases List.mem_append.1 ht with hmem | hmem
        · exact h t hmem
        · have htr : t = tr := by simpa using hmem
          have hth := (mkTransaction_type_date pyHash now amount category
            transaction_type description tr hm).1
          rw [goodType, htr, hth]
          exact hty

/-- The type invariant holds in every state reachable from one satisfying it. -/
theorem runOps_goodTypes (pyHash : String → ℤ) (ops : List Op) (s : FinanceTracker)
    (h : ∀ t ∈ s.transactions, goodType t) :
    ∀ t ∈ (runOps pyHash s ops).transactions, goodType t := by
  induction ops generalizing s with
  | nil => exact h
  | cons op ops ih => exact ih _ (applyOp_goodTypes pyHash s op h)

/-- On a list of well-typed transactions, balance equals the single signed
fold: each income adds its amount, each expense subtracts it. -/
theorem specBalance_eq_signed (ts : List Transaction)
    (h : ∀ t ∈ ts, goodType t) :
    specBalance ts = (ts.map signedAmount).sum := by
  induction ts with
  | nil => simp [specBalance]
  | cons t ts ih =>
      have hts : ∀ x ∈ ts, goodType x := fun x hx => h x (List.mem_cons_of_mem t hx)
      have ihs := ih hts
      rcases h t (List.mem_cons_self t ts) with h1 | h1
      · have hi : (decide (t.transaction_type = "income")) = true := by simp [h1]
        have he : (decide (t.transaction_type = "expense")) = false := by simp [h1]
        have hsa : signedAmount t = t.amount := by rw [signedAmount, if_pos h1]
        simp only [specBalance, List.filter_cons, hi, he, Bool.false_eq_true,
          if_true, if_false, List.map_cons, List.sum_cons, hsa]
        rw [← ihs]
        simp only [specBalance]
        ring
      · have hi : (decide (t.transaction_type = "income")) = false := by simp [h1]
        have he : (decide (t.transaction_type = "expense")) = true := by simp [h1]
        have hni : ¬ t.transaction_type = "income" := by simp [h1]
        have hsa : signedAmount t = -t.amount := by rw [signedAmount, if_neg hni]
        simp only [specBalance, List.filter_cons, hi, he, Bool.false_eq_true,
          if_true, if_false, List.map_cons, List.sum_cons, hsa]
        rw [← ihs]
        simp only [specBalance]
        ring

/-- C6: in every state reachable from the initial tracker by any sequence of
add/delete operations, `get_balance` is the sum of income amounts minus the
sum of expense amounts — equivalently, the signed sum over all stored
transactions. -/
theorem balance_spec (pyHash : String → ℤ) (ops : List Op) :
    get_balance (runOps pyHash initialTracker ops)
        = specBalance (runOps pyHash initialTracker ops).transactions
      ∧ get_balance (runOps pyHash initialTracker ops)
        = ((runOps pyHash initialTracker ops).transactions.map signedAmount).sum := by
  have h1 : get_balance (runOps pyHash initialTracker ops)
      = specBalance (runOps pyHash initialTracker ops).transactions := rfl
  refine ⟨h1, h1.trans (specBalance_eq_signed _ ?_)⟩
  refine runOps_goodTypes pyHash ops initialTracker ?_
  intro t ht
  simp [initialTracker] at ht

/-- If exactly one stored transaction has the given id, filtering it away
shortens the list by exactly one. -/
theorem filter_ne_length_of_count_one (ts : List Transaction) (tid : String)
    (h : ts.countP (fun t => decide (t.id = tid)) = 1) :
    (ts.filter (fun t => decide (t.id ≠ tid))).length + 1 = ts.length := by
  induction ts with
  | nil => simp at h
  | cons t ts ih =>
      rw [List.countP_cons] at h
      by_cases hid : t.id = tid
      · have hd : (decide (t.id = tid)) = true := by simp [hid]
        rw [hd] at h
        simp only [if_true] at h
        have hz : ts.countP (fun t => decide (t.id = tid)) = 0 := by omega
        have hall : ∀ x ∈ ts, ¬(decide (x.id = tid)) = true :=
          List.countP_eq_zero.1 hz
        have hfe : ts.filter (fun t => decide (t.id ≠ tid)) = ts := by
          rw [List.filter_eq_self]
          intro x hx
          have hx2 : ¬ x.id = tid := by simpa using hall x hx
          simpa using hx2
        have hdn : (decide (t.id ≠ tid)) = false := by simp [hid]
        simp only [List.filter_cons, hdn, Bool.false_eq_true, if_false, hfe,
          List.length_cons]
      · have hd : (decide (t.id = tid)) = false := by simp [hid]
        rw [hd] at h
        simp only [Bool.false_eq_true, if_false, add_zero] at h
        have := ih h
        have hdn : (decide (t.id ≠ tid)) = true := by simp [hid]
        simp only [List.filter_cons, hdn, if_true, List.length_cons]
        omega

/-- C7: `delete_transaction` keeps an order-preserving sublist, namely exactly
the transactions whose id differs; an absent id leaves the list unchanged,
and a uniquely-present id removes exactly one entry. -/
theorem delete_frame (s : FinanceTracker) (tid : String) :
    ((delete_transaction s tid).2.transactions).Sublist s.transactions
      ∧ (∀ t, t ∈ (delete_transaction s tid).2.transactions
            ↔ t ∈ s.transactions ∧ t.id ≠ tid)
      ∧ (tid ∉ s.transactions.map Transaction.id →
          (delete_transaction s tid).2.transactions = s.transactions)
      ∧ (s.transactions.countP (fun t => decide (t.id = tid)) = 1 →
          (delete_transaction s tid).2.transactions.length + 1
            = s.transactions.length) := by
  refine ⟨List.filter_sublist s.transactions, fun t => ?_, fun h => ?_, fun h => ?_⟩
  · simp [delete_transaction, List.mem_filter]
  · show s.transactions.filter (fun t => decide (t.id ≠ tid)) = s.transactions
    rw [List.filter_eq_self]
    intro t ht
    simp only [decide_eq_true_eq]
    intro hid
    exact h (hid ▸ List.mem_map_of_mem Transaction.id ht)
  · exact filter_ne_length_of_count_one s.transactions tid h

/-- C7 witness: deleting the present id "a" from the two-element tracker
removes exactly one; deleting the absent id "zz" changes nothing. -/
theorem delete_frame_witness :
    (delete_transaction trkAB "a").2.transactions.length + 1
        = trkAB.transactions.length
      ∧ (delete_transaction trkAB "zz").2.transactions = trkAB.transactions :=
  ⟨(delete_frame trkAB "a").2.2.2 (by decide),
   (delete_frame trkAB "zz").2.2.1 (by decide)⟩

/-- Lookup over a cons cell of an association list. -/
theorem dictLookup_cons (p : String × ℚ) (ps : List (String × ℚ)) (k : String) :
    dictLookup (p :: ps) k = if p.1 = k then some p.2 else dictLookup ps k := by
  by_cases h : p.1 = k
  · simp [dictLookup, List.find?_cons, h]
  · simp [dictLookup, List.find?_cons, h]

/-- `m[k] += v` changes the looked-up value at `k` and nothing else. -/
theorem dictLookup_dictAddTo (m : List (String × ℚ)) (k k' : String) (v : ℚ) :
    dictLookup (dictAddTo m k v) k'
      = if k' = k then (dictLookup m k').map (· + v) else dictLookup m k' := by
  induction m with
  | nil =>
      simp only [dictAddTo, List.map_nil, dictLookup, List.find?_nil, Option.map_none]
      split <;> rfl
  | cons p ps ih =>
      have hstep : dictAddTo (p :: ps) k v
          = (if p.1 = k then (p.1, p.2 + v) else p) :: dictAddTo ps k v := rfl
      rw [hstep]
      by_cases hpk : p.1 = k
      · rw [if_pos hpk, dictLookup_cons, dictLookup_cons]
        by_cases hpk' : p.1 = k'
        · have hk : k' = k := by rw [← hpk', hpk]
          simp [hpk', hk]
        · have hkk : ¬ k' = k := fun he => hpk' (by rw [hpk, ← he])
          simp [hpk', hkk, ih]
      · rw [if_neg hpk, dictLookup_cons, dictLookup_cons]
        by_cases hpk' : p.1 = k'
        · have hkk : ¬ k' = k := fun he => hpk (by rw [hpk', he])
          simp [hpk', hkk]
        · simp [hpk', ih]

/-- Appending a fresh zero entry: the lookup falls through to it only when
the key was absent. -/
theorem dictLookup_append_zero (m : List (String × ℚ)) (k k' : String) :
    dictLookup (m ++ [(k, 0)]) k'
      = (dictLookup m k').or (if k = k' then some 0 else none) := by
  induction m with
  | nil => simp [dictLookup_cons, dictLookup]
  | cons p ps ih =>
      rw [List.cons_append, dictLookup_cons, dictLookup_cons]
      by_cases hp : p.1 = k'
      · simp [hp]
      · simp [hp, ih]

/-- One loop iteration of `calculate_category_totals`, seen through lookup:
it adds the signed amount into the transaction's own category (starting from
0 on first sight) and leaves every other key's value alone. -/
theorem totalsStep_lookup (m : List (String × ℚ)) (t : Transaction) (cat : String) :
    dictLookup (totalsStep m t) cat
      = if cat = t.category
          then some ((dictLookup m cat).getD 0 + signedAmount t)
          else dictLookup m cat := by
  unfold totalsStep
  by_cases hpres : (dictLookup m t.category).isSome
  · rw [if_pos hpres]
    obtain ⟨v, hv⟩ := Option.isSome_iff_exists.1 hpres
    by_cases hcat : cat = t.category
    · subst hcat
      by_cases hty : t.transaction_type = "income"
      · rw [if_pos hty, dictLookup_dictAddTo, if_pos rfl, hv]
        simp [signedAmount, hty]
      · rw [if_neg hty, dictLookup_dictAddTo, if_pos rfl, hv]
        simp [signedAmount, hty]
    · by_cases hty : t.transaction_type = "income"
      · rw [if_pos hty, dictLookup_dictAddTo, if_neg hcat, if_neg hcat]
      · rw [if_neg hty, dictLookup_dictAddTo, if_neg hcat, if_neg hcat]
  · rw [if_neg hpres]
    have hnone : dictLookup m t.category = none := by
      cases hmv : dictLookup m t.category with
      | none => rfl
      | some v => rw [hmv] at hpres; simp at hpres
    by_cases hcat : cat = t.category
    · subst hcat
      by_cases hty : t.transaction_type = "income"
      · rw [if_pos hty, dictLookup_dictAddTo, if_pos rfl, dictLookup_append_zero,
          hnone, if_pos rfl]
        simp [signedAmount, hty, hnone]
      · rw [if_neg hty, dictLookup_dictAddTo, if_pos rfl, dictLookup_append_zero,
          hnone, if_pos rfl]
        simp [signedAmount, hty, hnone]
    · have hne : ¬ t.category = cat := fun he => hcat he.symm
      by_cases hty : t.transaction_type = "income"
      · rw [if_pos hty, dictLookup_dictAddTo, if_neg hcat, dictLookup_append_zero,
          if_neg hne, if_neg hcat]
        cases dictLookup m cat <;> rfl
      · rw [if_neg hty, dictLookup_dictAddTo, if_neg hcat, dictLookup_append_zero,
          if_neg hne, if_neg hcat]
        cases dictLookup m cat <;> rfl

/-- Filtering a cons for one category: the head contributes its signed amount
exactly when it belongs to the category. -/
theorem signedTotal_cons (t : Transaction) (ts : List Transaction) (cat : String) :
    signedTotal (t :: ts) cat
      = (if t.category = cat then signedAmount t else 0) + signedTotal ts cat := by
  by_cases h : t.category = cat
  · have hd : (decide (t.category = cat)) = true := by simp [h]
    simp [signedTotal, List.filter_cons, hd, h]
  · have hd : (decide (t.category = cat)) = false := by simp [h]
    simp [signedTotal, List.filter_cons, hd, h]

/-- The loop of `calculate_category_totals` over any starting accumulator:
a key already present accumulates the signed total of the remaining
transactions; an absent key appears iff some remaining transaction carries
that category, with exactly the signed total. -/
theorem totals_foldl (ts : List Transaction) (m : List (String × ℚ)) (cat : String) :
    dictLookup (ts.foldl totalsStep m) cat
      = match dictLookup m cat with
        | some v => some (v + signedTotal ts cat)
        | none =>
            if cat ∈ ts.map Transaction.category
              then some (signedTotal ts cat) else none := by
  induction ts generalizing m with
  | nil =>
      cases hm : dictLookup m cat <;> simp [hm, signedTotal]
  | cons t ts ih =>
      rw [List.foldl_cons, ih (totalsStep m t), totalsStep_lookup]
      by_cases hcat : cat = t.category
      · rw [if_pos hcat]
        cases hm : dictLookup m cat with
        | some v =>
            simp only [hm, Option.getD_some, signedTotal_cons, hcat.symm, if_pos]
            rw [add_assoc]
        | none =>
            have hmem : cat ∈ (t :: ts).map Transaction.category := by
              simp [hcat]
            simp only [hm, Option.getD_none, hmem, if_pos, signedTotal_cons]
            rw [if_pos hcat.symm, zero_add]
      · rw [if_neg hcat]
        have hne : ¬ t.category = cat := fun he => hcat he.symm
        have hst : signedTotal (t :: ts) cat = signedTotal ts cat := by
          rw [signedTotal_cons, if_neg hne, zero_add]
        have hmem : (cat ∈ (t :: ts).map Transaction.category)
            ↔ (cat ∈ ts.map Transaction.category) := by
          simp [List.mem_cons, hcat]
        cases hm : dictLookup m cat with
        | some v => simp [hm, hst]
        | none => simp [hm, hst, hcat]

/-- C8: `calculate_category_totals` builds one map keyed by category name
alone: a category appears iff some transaction (of either kind) carries it,
and its value is the signed total — income amounts added, expense amounts
subtracted.  On the spec's example the result is
{"Salary": 1000, "Food": -70} in insertion order. -/
theorem category_totals_signed :
    (∀ (ts : List Transaction) (cat : String),
        dictLookup (calculate_category_totals ts) cat
          = if cat ∈ ts.map Transaction.category
              then some (signedTotal ts cat) else none)
      ∧ calculate_category_totals exampleTxs = [("Salary", 1000), ("Food", -70)] := by
  constructor
  · intro ts cat
    have h := totals_foldl ts [] cat
    have hnil : dictLookup ([] : List (String × ℚ)) cat = none := rfl
    rw [calculate_category_totals, h, hnil]
  · simp [calculate_category_totals, exampleTxs, List.foldl, totalsStep,
      dictLookup, dictAddTo]
    norm_num

/-- All stored dates strictly older than the window start make the recent
filter of `generate_spending_report` empty. -/
theorem report_filter_stale (strptime : String → ℤ) (now : ℤ)
    (ts : List Transaction) (days : ℤ)
    (h : ∀ t ∈ ts, strptime t.date < now - days * 86400) :
    ts.filter (fun t => decide (now - days * 86400 ≤ strptime t.date)
        && decide (strptime t.date ≤ now)) = [] := by
  rw [List.filter_eq_nil_iff]
  intro t ht
  simp only [Bool.and_eq_true, decide_eq_true_eq, not_and]
  intro hle
  exact absurd hle (not_le.2 (h t ht))

/-- C9: `generate_spending_report` keeps only transactions inside the closed
interval `[now − days·86400, now]`; when every stored timestamp is strictly
older than the window start, all totals are zero and both per-category maps
are empty (no zero-valued keys appear). -/
theorem spending_report_stale (strptime : String → ℤ) (fmtDay : ℤ → String)
    (now : ℤ) (ts : List Transaction) (days : ℤ)
    (h : ∀ t ∈ ts, strptime t.date < now - days * 86400) :
    (generate_spending_report strptime fmtDay now ts days).total_income = 0
      ∧ (generate_spending_report strptime fmtDay now ts days).total_expenses = 0
      ∧ (generate_spending_report strptime fmtDay now ts days).net_balance = 0
      ∧ (generate_spending_report strptime fmtDay now ts days).expense_by_category = []
      ∧ (generate_spending_report strptime fmtDay now ts days).income_by_category = [] := by
  have hrec := report_filter_stale strptime now ts days h
  simp only [generate_spending_report]
  rw [hrec]
  simp [byCategorySum]

/-- C9 witness: with a parse function sending every date to time 0 and "now"
40 days later, the one-transaction set is entirely outside the 30-day window
and the report is all zeros and empty maps. -/
theorem spending_report_stale_witness :
    (generate_spending_report (fun _ => 0) (fun _ => "") (86400 * 40) [txA] 30).total_income = 0
      ∧ (generate_spending_report (fun _ => 0) (fun _ => "") (86400 * 40) [txA] 30).total_expenses = 0
      ∧ (generate_spending_report (fun _ => 0) (fun _ => "") (86400 * 40) [txA] 30).net_balance = 0
      ∧ (generate_spending_report (fun _ => 0) (fun _ => "") (86400 * 40) [txA] 30).expense_by_category = []
      ∧ (generate_spending_report (fun _ => 0) (fun _ => "") (86400 * 40) [txA] 30).income_by_category = [] :=
  spending_report_stale (fun _ => 0) (fun _ => "") (86400 * 40) [txA] 30
    (by intro t ht; norm_num)

end FinTrack
